import Mathlib

/-!
Verification of the artifact tracking and synchronization subsystem of the
custom-copilot command-line tool.

The Lean definitions below are a shallow embedding of the Python sources:

* `src/custom_copilot/utils.py` — content hashing (`calculate_dir_hash`,
  `calculate_file_hash`), the provenance tracking store
  (`get_target_dir`, `get_tracking_file_path`, `track_artifact`,
  `get_artifact_info`, `get_all_tracked_artifacts`);
* `src/cc/commands/sync.py` — the sync reconciler (`sync_artifact`, `run`);
* `src/custom_copilot/config.py` — source resolution
  (`get_custom_source_path`, `parse_github_url`, `download_github_file`);
* `src/custom_copilot/commands/bundle.py` — bundle installation
  (`install_bundle_resource`, `install_bundle`).

Pure computations (URL parsing, hash-input construction, folder priority)
are translated directly.  Effectful code (filesystem reads and writes, the
network, the interactive prompt) is embedded by making every external
observation an explicit parameter and every write an explicit field of the
returned record, keeping the Python control flow intact.
-/

namespace CustomCopilot

/-! ## Content hashing: `calculate_dir_hash` (`src/custom_copilot/utils.py`)

The Python function walks `sorted(dir_path.rglob("*"))`, and for every
regular file feeds `str(relative_path).encode()` followed by the file's
bytes into one running SHA-256 digest.  A directory is embedded as the
list of its regular files, each a pair of relative path and content
bytes; the embedding computes the exact byte stream fed to SHA-256.  The
digest is SHA-256 applied to that stream (SHA-256 itself is Python
library code, not part of this repository), so equal streams give equal
digests, and the stream is the only input the digest depends on. -/

/-- Byte encoding of a path string, modelling `str(relative_path).encode()`.
For the ASCII paths appearing throughout, `Char.toNat` agrees with UTF-8. -/
def strBytes (s : String) : List Nat := s.data.map Char.toNat

/-- A directory listing: the regular files of a directory tree, as pairs of
relative path and content bytes.  `pathlib` sorts paths componentwise; the
embedding sorts by the relative path string, which is likewise a total
order determined only by the path, and coincides with the componentwise
order on the single-component paths used in concrete examples. -/
abbrev DirListing := List (String × List Nat)

/-- Lexicographic comparison of two character lists, the total order by
which paths are sorted. -/
def pathLe : List Char → List Char → Bool
  | [], _ => true
  | _ :: _, [] => false
  | a :: as, b :: bs =>
    if a < b then true
    else if b < a then false
    else pathLe as bs

/-- Comparison used to sort directory entries, modelling `sorted(...)` over
the files of the directory: entries are compared by relative path alone
(`pathlib` compares paths by their components; the embedding compares the
path strings lexicographically, likewise a total order determined only by
the path, coinciding with the componentwise order on the single-component
paths of the concrete examples). -/
def fileOrder (a b : String × List Nat) : Prop := pathLe a.1.data b.1.data = true

instance : DecidableRel fileOrder :=
  fun a b => inferInstanceAs (Decidable (pathLe a.1.data b.1.data = true))

/-- Strict version of `fileOrder`, used to state uniqueness of the sorted
listing when all paths are distinct. -/
def fileLt (a b : String × List Nat) : Prop :=
  pathLe a.1.data b.1.data = true ∧ a.1 ≠ b.1

/-- Sorting step of `calculate_dir_hash`: `sorted(dir_path.rglob("*"))`
restricted to regular files (a stable sort by path). -/
def sortFiles (files : DirListing) : DirListing :=
  List.insertionSort fileOrder files

/-- Bytes contributed by one file: `sha256_hash.update(str(relative_path).encode())`
followed by the file's content chunks. -/
def fileChunk (f : String × List Nat) : List Nat := strBytes f.1 ++ f.2

/-- The byte stream `calculate_dir_hash` feeds to SHA-256: for each file in
sorted order, the relative path bytes followed by the content bytes.  The
hex digest returned by the Python function is SHA-256 of this stream. -/
def calculate_dir_hash_input (files : DirListing) : List Nat :=
  (sortFiles files).foldl (fun acc f => acc ++ fileChunk f) []

/-- Content replacement used to state the effect of modifying one file in
place: the entry whose relative path is `p` gets content `c2`. -/
def setContent (p : String) (c2 : List Nat) (f : String × List Nat) : String × List Nat :=
  if f.1 = p then (p, c2) else f

/-! ## Provenance store (`src/custom_copilot/utils.py`) -/

/-- One record of the tracking file, as written by `track_artifact`:
the value stored under the key `type/name` in the `artifacts` object. -/
structure TrackRecord where
  type : String
  name : String
  source_hash : String
  version : String
  from_registry : Bool
deriving DecidableEq

/-- The tracking file's `artifacts` object: keys mapped to records, in the
key order of the JSON file.  `json.load` preserves this order, and
`track_artifact` appends new keys at the end, so the list order is the
insertion order. -/
abbrev TrackingStore := List (String × TrackRecord)

/-- Embedding of `get_all_tracked_artifacts`: `list(tracking_data["artifacts"].values())`,
the record values in the store's key order, unsorted. -/
def get_all_tracked_artifacts (store : TrackingStore) : List TrackRecord :=
  store.map Prod.snd

/-- Embedding of `get_artifact_info`: `tracking_data["artifacts"].get(type + "/" + name)`. -/
def get_artifact_info (store : TrackingStore) (ty nm : String) : Option TrackRecord :=
  (store.lookup (ty ++ "/" ++ nm))

/-- Embedding of `get_target_dir`: checks `.github`, `.claude`, `.cuco` in
order against the project root and returns the first existing one,
defaulting to `.github`.  The three flags say which of the folders exist. -/
def get_target_dir (hasGithub hasClaude hasCuco : Bool) : String :=
  if hasGithub then ".github"
  else if hasClaude then ".claude"
  else if hasCuco then ".cuco"
  else ".github"

/-- Embedding of `get_github_dir`: always the `.github` folder of the
project root, with no existence check. -/
def get_github_dir : String := ".github"

/-- The constant `TRACKING_FILE` of `utils.py`. -/
def TRACKING_FILE : String := ".cuco-tracking.json"

/-- Embedding of `get_tracking_file_path`: `get_github_dir() / TRACKING_FILE`.
Note the source calls `get_github_dir`, not `get_target_dir`. -/
def get_tracking_file_path : String := get_github_dir ++ "/" ++ TRACKING_FILE

/-! ## Sync reconciliation (`src/cc/commands/sync.py`)

`sync_artifact` reads the tracking record, the artifact's current on-disk
hash and the registry hash, then decides between up-to-date, clean
upgrade, and conflict.  The helpers it imports under `cc.utils` are the
functions of `custom_copilot/utils.py` embedded above.  The embedding
passes the three observations as parameters (one filesystem snapshot per
run) and returns the outcome together with every write performed. -/

/-- Result of one `sync_artifact` call: `ok`/`failed` are the `True`/`False`
returns; `crashed` models an uncaught `EOFError` when `input()` runs out
of lines inside the conflict prompt loop. -/
inductive SyncRes
  | ok
  | failed
  | crashed
deriving DecidableEq

/-- Observable outcome of `sync_artifact`: the returned status, whether the
registry content was copied over the local artifact (`shutil.copy2` /
`copytree`), the hash written to the tracking file by `track_artifact`
(if any), and whether the interactive conflict prompt was shown. -/
structure SyncOutcome where
  result : SyncRes
  copied : Bool
  tracked : Option String
  prompted : Bool
deriving DecidableEq

/-- Outcome of the conflict prompt loop: the first input line equal to
one of the accepted answers after `strip()` decides; lines that are
neither are re-prompted; running out of lines raises `EOFError`. -/
inductive PromptChoice
  | overwrite
  | keep
  | exhausted
deriving DecidableEq

/-- Python `str.strip()`: drop whitespace from both ends. -/
def pyStrip (s : List Char) : List Char :=
  ((s.dropWhile Char.isWhitespace).reverse.dropWhile Char.isWhitespace).reverse

/-- The `while True` prompt loop of `sync_artifact`: `input().strip()`
equal to a one means overwrite, a two means keep, anything else loops. -/
def promptLoop : List String → PromptChoice
  | [] => .exhausted
  | s :: rest =>
    if pyStrip s.data = "1".data then .overwrite
    else if pyStrip s.data = "2".data then .keep
    else promptLoop rest

/-- Embedding of `sync_artifact(artifact_type, artifact_name, force)`.

Parameters are the values the Python code reads from its environment:
`info` is `get_artifact_info(...)`, `currentHash` is
`get_current_artifact_hash(...)`, `registryHash` is
`get_registry_artifact_hash(...)`, and `inputs` are the lines available
on standard input for the conflict prompt.  When `registryHash` is
present, the later re-search of the same `possible_paths` list finds the
same registry entry (one filesystem snapshot per run), so the copy step
proceeds. -/
def sync_artifact (info : Option TrackRecord) (currentHash registryHash : Option String)
    (force : Bool) (inputs : List String) : SyncOutcome :=
  match info with
  | none => ⟨.failed, false, none, false⟩
  | some i =>
    match currentHash with
    | none => ⟨.failed, false, none, false⟩
    | some cur =>
      match registryHash with
      | none => ⟨.failed, false, none, false⟩
      | some reg =>
        if reg = i.source_hash then ⟨.ok, false, none, false⟩
        else if cur ≠ i.source_hash ∧ force = false then
          match promptLoop inputs with
          | .keep => ⟨.failed, false, none, true⟩
          | .exhausted => ⟨.crashed, false, none, true⟩
          | .overwrite => ⟨.ok, true, some reg, true⟩
        else ⟨.ok, true, some reg, false⟩

/-- Processing order of `run` when syncing all tracked artifacts: the
loop `for artifact in tracked_artifacts` visits the records returned by
`get_all_tracked_artifacts`, identified here by type and name. -/
def sync_all_order (store : TrackingStore) : List (String × String) :=
  (get_all_tracked_artifacts store).map (fun a => (a.type, a.name))

/-- Specification-side ordering for the sync-all claim, written from the
spec's words, to be compared with the code's order: the tracked records
sorted by identity key `type + "/" + name`. -/
def spec_sorted_artifacts (store : TrackingStore) : List TrackRecord :=
  List.insertionSort
    (fun a b : TrackRecord =>
      pathLe (a.type ++ "/" ++ a.name).data (b.type ++ "/" ++ b.name).data = true)
    (get_all_tracked_artifacts store)

/-! ## GitHub URL parsing: `parse_github_url` (`src/custom_copilot/config.py`)

The function is pure string manipulation: `strip`, substring membership
(`in`), `replace(pat, "")` and `split("/")`.  Those Python primitives are
modelled below on `List Char` with the same semantics, and the parser is
a direct transcription of the two branches of the Python function. -/

/-- Python substring membership `pat in s`. -/
def containsSub (pat : List Char) : List Char → Bool
  | [] => pat.isEmpty
  | c :: rest => pat.isPrefixOf (c :: rest) || containsSub pat rest

/-- Auxiliary recursion for `pyRemoveStr`: remove every occurrence of the
nonempty pattern `p :: ps`, scanning left to right.  The recursion is
structural on a fuel argument bounding the scan length; each step either
skips a matched occurrence (`ps.length + 1` characters, at least one) or
advances one character, so fuel equal to the input length realizes the
full left-to-right scan. -/
def pyRemove (p : Char) (ps : List Char) : Nat → List Char → List Char
  | _, [] => []
  | 0, l => l
  | fuel + 1, c :: rest =>
    if (p :: ps).isPrefixOf (c :: rest) then pyRemove p ps fuel (rest.drop ps.length)
    else c :: pyRemove p ps fuel rest

/-- Python `s.replace(pat, "")`: remove every occurrence of `pat`.  With an
empty pattern Python returns `s` unchanged when the replacement is empty. -/
def pyRemoveStr (pat : String) (s : List Char) : List Char :=
  match pat.data with
  | [] => s
  | p :: ps => pyRemove p ps s.length s

/-- Python `s.split("/")`: split at every slash, keeping empty segments. -/
def splitSlash : List Char → List (List Char)
  | [] => [[]]
  | c :: rest =>
    if c = '/' then [] :: splitSlash rest
    else
      match splitSlash rest with
      | g :: gs => (c :: g) :: gs
      | [] => [[c]]

/-- Python `"/".join(parts)`. -/
def joinSlash (parts : List (List Char)) : List Char :=
  List.intercalate ['/'] parts

/-- Result of `parse_github_url`: the dictionary with keys `owner`,
`repo`, `ref` and `path`. -/
structure GitHubRef where
  owner : String
  repo : String
  ref : String
  path : String
deriving DecidableEq

/-- Second half of `parse_github_url`: the `github.com` branch.  Strips the
protocol-and-domain text, splits on slashes, and reads `blob`/`tree`
segments; with fewer than two segments, or when the host test fails, the
function returns `None`. -/
def parse_github_com (u : List Char) : Option GitHubRef :=
  if containsSub "github.com".data u then
    let u2 := pyRemoveStr "http://github.com/" (pyRemoveStr "https://github.com/" u)
    let parts := splitSlash u2
    if 2 ≤ parts.length then
      if 4 ≤ parts.length ∧ (parts.getD 2 [] = "blob".data ∨ parts.getD 2 [] = "tree".data) then
        some { owner := String.mk (parts.getD 0 []), repo := String.mk (parts.getD 1 []),
               ref := String.mk (parts.getD 3 []),
               path := if 4 < parts.length then String.mk (joinSlash (parts.drop 4)) else "" }
      else if 2 < parts.length then
        some { owner := String.mk (parts.getD 0 []), repo := String.mk (parts.getD 1 []),
               ref := "main", path := String.mk (joinSlash (parts.drop 2)) }
      else
        some { owner := String.mk (parts.getD 0 []), repo := String.mk (parts.getD 1 []),
               ref := "main", path := "" }
    else none
  else none

/-- Embedding of `parse_github_url(url)`.  The raw-content-host branch is
tried first; when it does not produce a result (fewer than three
segments), control falls through to the `github.com` branch, exactly as
in the Python function. -/
def parse_github_url (url : String) : Option GitHubRef :=
  let u := pyStrip url.data
  if containsSub "raw.githubusercontent.com".data u then
    let parts := splitSlash (pyRemoveStr "https://raw.githubusercontent.com/" u)
    if 3 ≤ parts.length then
      some { owner := String.mk (parts.getD 0 []), repo := String.mk (parts.getD 1 []),
             ref := if 3 < parts.length then String.mk (parts.getD 2 []) else "main",
             path := if 3 < parts.length then String.mk (joinSlash (parts.drop 3)) else "" }
    else parse_github_com u
  else parse_github_com u

/-! ## Custom source resolution: `get_custom_source_path` (`src/custom_copilot/config.py`) -/

/-- Which of the four recognized top-level folders exist in a resolved
source repository clone. -/
structure RepoLayout where
  hasCustomCopilot : Bool
  hasDotCuco : Bool
  hasDotGithub : Bool
  hasSkills : Bool
deriving DecidableEq

/-- The folder-priority loop of `get_custom_source_path`: the
`possible_paths` list is `custom_copilot`, `.cuco`, `.github`, `skills`,
in that order, and the first existing one is returned. -/
def resolve_structure_root (repo : RepoLayout) : Option String :=
  if repo.hasCustomCopilot then some "custom_copilot"
  else if repo.hasDotCuco then some ".cuco"
  else if repo.hasDotGithub then some ".github"
  else if repo.hasSkills then some "skills"
  else none

/-- Embedding of `get_custom_source_path(source_name)`.  `sourceFound`
says whether `get_source_by_name` found a configured source;
`cloneResult` is the outcome of `clone_or_update_repo` (`none` when the
clone or update failed or the source is not a git repository), carrying
the layout of the cached clone on success.  The returned value is the
folder name, relative to the clone root, chosen as resolution root. -/
def get_custom_source_path (sourceFound : Bool) (cloneResult : Option RepoLayout) :
    Option String :=
  if sourceFound = false then none
  else
    match cloneResult with
    | none => none
    | some repo => resolve_structure_root repo

/-! ## Raw file download: `download_github_file` (`src/custom_copilot/config.py`)

The body is one `try` block: create a named temporary file, download into
it with `urlretrieve`, then reject files above ten mebibytes by deleting
the temporary file and returning `None`; the `except` handler deletes the
temporary file if one exists before returning `None`.  The embedding
threads the temporary-file state through the same steps and models each
fallible external call by an environment flag. -/

/-- External behaviour of one `download_github_file` call: whether
creating the temporary file succeeds, whether the download succeeds, and
the size `stat().st_size` reports for the downloaded file. -/
structure DownloadEnv where
  tempCreateOk : Bool
  fetchOk : Bool
  size : Nat

/-- State of the temporary file: the `temp_path` variable (set once the
file is created) and whether the file currently exists on disk. -/
structure TempState where
  tempPath : Option String
  onDisk : Bool
deriving DecidableEq

/-- Outcome of a Python block: a returned value, or a raised exception. -/
inductive PyOutcome (α : Type)
  | ok (a : α)
  | exn

/-- The `try` body of `download_github_file`: temporary-file creation,
download, and the size ceiling check (`10 * 1024 * 1024` bytes). -/
def download_try_body (env : DownloadEnv) : PyOutcome (Option String) × TempState :=
  if env.tempCreateOk = false then (.exn, ⟨none, false⟩)
  else
    let st : TempState := ⟨some "tmp", true⟩
    if env.fetchOk = false then (.exn, st)
    else if 10 * 1024 * 1024 < env.size then (.ok none, { st with onDisk := false })
    else (.ok (some "tmp"), st)

/-- Embedding of `download_github_file`: runs the `try` body and, on an
exception, the `except` handler, which unlinks the temporary file when
`temp_path` is set and the file exists, then returns `None`.  The result
is the returned value paired with the final temporary-file state. -/
def download_github_file (env : DownloadEnv) : Option String × TempState :=
  match download_try_body env with
  | (.ok r, st) => (r, st)
  | (.exn, st) =>
    match st.tempPath with
    | some _ => if st.onDisk then (none, { st with onDisk := false }) else (none, st)
    | none => (none, st)

/-! ## Bundle installation (`src/custom_copilot/commands/bundle.py`)

`install_bundle_resource` dispatches on the `type` field of a dependency
entry; the recognized kinds are `bundle`, `custom-copilot`, `custom`,
`github` and `agentskills`, plus the deprecated aliases `inline` and
`reference` which rewrite the entry and recurse.  Every branch performs
filesystem or network work whose success is environment-dependent; the
embedding abstracts each recognized branch's work as a boolean supplied
by the environment, keeping the dispatch and the fallthrough exact.
`install_bundle` loops over the manifest's dependency lists, discarding
the per-resource results, and returns `True`. -/

/-- One dependency entry of a bundle manifest: its `name` and the
resolution kind stored in its `type` field. -/
structure BundleResource where
  name : String
  kind : String
deriving DecidableEq

/-- The recognized resolution kinds, deprecated aliases included. -/
def recognizedKinds : List String :=
  ["bundle", "custom-copilot", "custom", "github", "agentskills", "inline", "reference"]

/-- Recursion body of `install_bundle_resource`, structural on a depth
bound: the deprecated aliases `inline` and `reference` rewrite the
entry's kind to the canonical one and recurse exactly once, so any depth
bound of at least two realizes the Python recursion. -/
def install_bundle_resource_aux (env : BundleResource → Bool) :
    Nat → BundleResource → Bool
  | 0, _ => false
  | depth + 1, r =>
    if r.kind = "bundle" then env r
    else if r.kind = "custom-copilot" then env r
    else if r.kind = "custom" then env r
    else if r.kind = "github" then env r
    else if r.kind = "agentskills" then env r
    else if r.kind = "inline" then
      install_bundle_resource_aux env depth { r with kind := "bundle" }
    else if r.kind = "reference" then
      install_bundle_resource_aux env depth { r with kind := "custom-copilot" }
    else false

/-- Embedding of `install_bundle_resource`: dispatch on the entry's kind.
`env r` is the success of the recognized branch's filesystem or network
work for entry `r`; an entry of unrecognized kind falls through every
branch and returns `False` without printing or installing anything. -/
def install_bundle_resource (env : BundleResource → Bool) (r : BundleResource) : Bool :=
  install_bundle_resource_aux env 2 r

/-- The dependency lists of a bundle manifest (`dependencies` object). -/
structure BundleManifest where
  agents : List BundleResource
  prompts : List BundleResource
  skills : List BundleResource
  instructions : List BundleResource
deriving DecidableEq

/-- Embedding of `install_bundle`: fails when the manifest is missing or
the `.github` directory does not exist; otherwise installs every
dependency entry in order and returns `True`.  The second component
records the per-resource results of `install_bundle_resource`, which the
Python loops compute and discard. -/
def install_bundle (env : BundleResource → Bool) (manifest : Option BundleManifest)
    (githubDirExists : Bool) : Bool × List Bool :=
  match manifest with
  | none => (false, [])
  | some m =>
    if githubDirExists = false then (false, [])
    else
      (true,
        (m.agents ++ m.prompts ++ m.skills ++ m.instructions).map (install_bundle_resource env))

/-! ## Helper lemmas

Order-theoretic facts about `pathLe`, uniqueness of the sorted listing,
and structural facts about the hash input stream.  These are shared
infrastructure; the claim theorems follow afterwards. -/

theorem pathLe_total : ∀ a b : List Char, pathLe a b = true ∨ pathLe b a = true
  | [], _ => Or.inl rfl
  | _ :: _, [] => Or.inr rfl
  | a :: as, b :: bs => by
    rcases lt_trichotomy a b with h | h | h
    · left
      simp [pathLe, h]
    · subst h
      rcases pathLe_total as bs with ih | ih
      · left
        simp [pathLe, lt_irrefl, ih]
      · right
        simp [pathLe, lt_irrefl, ih]
    · right
      simp [pathLe, h]

theorem pathLe_trans : ∀ a b c : List Char,
    pathLe a b = true → pathLe b c = true → pathLe a c = true
  | [], _, _, _, _ => rfl
  | _ :: _, [], _, hab, _ => by simp [pathLe] at hab
  | _ :: _, _ :: _, [], _, hbc => by simp [pathLe] at hbc
  | a :: as, b :: bs, c :: cs, hab, hbc => by
    simp only [pathLe] at hab hbc ⊢
    rcases lt_trichotomy a b with h1 | h1 | h1
    · rcases lt_trichotomy b c with h2 | h2 | h2
      · simp [lt_trans h1 h2]
      · subst h2
        simp [h1]
      · rw [if_neg (lt_asymm h2), if_pos h2] at hbc
        exact absurd hbc (by simp)
    · subst h1
      rw [if_neg (lt_irrefl a), if_neg (lt_irrefl a)] at hab
      rcases lt_trichotomy a c with h2 | h2 | h2
      · simp [h2]
      · subst h2
        rw [if_neg (lt_irrefl a), if_neg (lt_irrefl a)] at hbc
        simp only [lt_irrefl, if_false]
        exact pathLe_trans as bs cs hab hbc
      · rw [if_neg (lt_asymm h2), if_pos h2] at hbc
        exact absurd hbc (by simp)
    · rw [if_neg (lt_asymm h1), if_pos h1] at hab
      exact absurd hab (by simp)

theorem pathLe_antisymm : ∀ a b : List Char, pathLe a b = true → pathLe b a = true → a = b
  | [], [], _, _ => rfl
  | [], _ :: _, _, hba => by simp [pathLe] at hba
  | _ :: _, [], hab, _ => by simp [pathLe] at hab
  | a :: as, b :: bs, hab, hba => by
    rcases lt_trichotomy a b with h | h | h
    · rw [pathLe, if_neg (lt_asymm h), if_pos h] at hba
      exact absurd hba (by simp)
    · subst h
      rw [pathLe, if_neg (lt_irrefl a), if_neg (lt_irrefl a)] at hab hba
      rw [pathLe_antisymm as bs hab hba]
    · rw [pathLe, if_neg (lt_asymm h), if_pos h] at hab
      exact absurd hab (by simp)

instance : IsTotal (String × List Nat) fileOrder :=
  ⟨fun a b => pathLe_total a.1.data b.1.data⟩

instance : IsTrans (String × List Nat) fileOrder :=
  ⟨fun a b c => pathLe_trans a.1.data b.1.data c.1.data⟩

theorem string_eq_of_data_eq {a b : String} (h : a.data = b.data) : a = b := by
  cases a
  cases b
  exact congrArg String.mk h

instance : IsAntisymm (String × List Nat) fileLt :=
  ⟨fun _ _ h1 h2 =>
    absurd (string_eq_of_data_eq (pathLe_antisymm _ _ h1.1 h2.1)) h1.2⟩

theorem sortFiles_perm (l : DirListing) : (sortFiles l).Perm l :=
  List.perm_insertionSort _ _

theorem sortFiles_sorted (l : DirListing) : List.Sorted fileOrder (sortFiles l) :=
  List.sorted_insertionSort _ _

/-- The sorted listing is determined by the relative-path-to-content
mapping alone: two listings that are permutations of one another (with
distinct paths) sort identically. -/
theorem sortFiles_eq_of_perm {l1 l2 : DirListing} (hp : l1.Perm l2)
    (hnd : l1.Pairwise fun a b => a.1 ≠ b.1) : sortFiles l1 = sortFiles l2 := by
  have hnd2 : l2.Pairwise (fun a b => a.1 ≠ b.1) :=
    (hp.pairwise_iff (fun h => h.symm)).mp hnd
  have n1 : (sortFiles l1).Pairwise (fun a b => a.1 ≠ b.1) :=
    ((sortFiles_perm l1).pairwise_iff (fun h => h.symm)).mpr hnd
  have n2 : (sortFiles l2).Pairwise (fun a b => a.1 ≠ b.1) :=
    ((sortFiles_perm l2).pairwise_iff (fun h => h.symm)).mpr hnd2
  have lt1 : List.Sorted fileLt (sortFiles l1) :=
    ((sortFiles_sorted l1).and n1).imp fun h => ⟨h.1, h.2⟩
  have lt2 : List.Sorted fileLt (sortFiles l2) :=
    ((sortFiles_sorted l2).and n2).imp fun h => ⟨h.1, h.2⟩
  exact List.eq_of_perm_of_sorted
    ((sortFiles_perm l1).trans (hp.trans (sortFiles_perm l2).symm)) lt1 lt2

theorem foldl_fileChunk_eq (l : List (String × List Nat)) :
    ∀ acc : List Nat,
      l.foldl (fun a f => a ++ fileChunk f) acc = acc ++ (l.map fileChunk).flatten := by
  induction l with
  | nil => simp
  | cons f t ih =>
    intro acc
    simp [ih, List.append_assoc]

theorem dir_hash_input_eq_flatten (l : DirListing) :
    calculate_dir_hash_input l = ((sortFiles l).map fileChunk).flatten := by
  unfold calculate_dir_hash_input
  rw [foldl_fileChunk_eq]
  simp

theorem dir_hash_input_perm {l1 l2 : DirListing} (hp : l1.Perm l2)
    (hnd : l1.Pairwise fun a b => a.1 ≠ b.1) :
    calculate_dir_hash_input l1 = calculate_dir_hash_input l2 := by
  unfold calculate_dir_hash_input
  rw [sortFiles_eq_of_perm hp hnd]

theorem dir_hash_input_length (l : DirListing) :
    (calculate_dir_hash_input l).length = (l.map fun f => (fileChunk f).length).sum := by
  rw [dir_hash_input_eq_flatten, List.length_flatten, List.map_map]
  exact ((sortFiles_perm l).map fun f => (fileChunk f).length).sum_eq

/-- Adding a file (nonempty relative path) strictly lengthens the hash
input stream, so the stream changes.  Read backwards, removing a file
changes it as well. -/
theorem dir_hash_input_append_ne (files : DirListing) (p : String) (c : List Nat)
    (hp : p ≠ "") :
    calculate_dir_hash_input (files ++ [(p, c)]) ≠ calculate_dir_hash_input files := by
  intro h
  have hd : p.data ≠ [] := fun hnil => hp (string_eq_of_data_eq hnil)
  have hpos : 0 < p.data.length := List.length_pos.mpr hd
  have hlen := congrArg List.length h
  rw [dir_hash_input_length, dir_hash_input_length, List.map_append, List.sum_append] at hlen
  simp only [List.map_cons, List.map_nil, List.sum_cons, List.sum_nil, fileChunk, strBytes,
    List.length_append, List.length_map] at hlen
  omega

theorem setContent_fst (p : String) (c2 : List Nat) (f : String × List Nat) :
    (setContent p c2 f).1 = f.1 := by
  unfold setContent
  split
  · simp_all
  · rfl

theorem fileOrder_setContent (p : String) (c2 : List Nat) (a b : String × List Nat) :
    fileOrder (setContent p c2 a) (setContent p c2 b) ↔ fileOrder a b := by
  unfold fileOrder
  rw [setContent_fst, setContent_fst]

theorem orderedInsert_setContent (p : String) (c2 : List Nat) (a : String × List Nat) :
    ∀ l : DirListing,
      List.orderedInsert fileOrder (setContent p c2 a) (l.map (setContent p c2)) =
        (List.orderedInsert fileOrder a l).map (setContent p c2) := by
  intro l
  induction l with
  | nil => rfl
  | cons b t ih =>
    simp only [List.map_cons, List.orderedInsert]
    by_cases h : fileOrder a b
    · rw [if_pos ((fileOrder_setContent p c2 a b).mpr h), if_pos h]
      simp
    · rw [if_neg (fun hc => h ((fileOrder_setContent p c2 a b).mp hc)), if_neg h,
        List.map_cons, ih]

/-- Sorting commutes with a path-preserving content change: the sort key
is the path, which `setContent` leaves untouched. -/
theorem sortFiles_map_setContent (p : String) (c2 : List Nat) :
    ∀ l : DirListing, sortFiles (l.map (setContent p c2)) = (sortFiles l).map (setContent p c2) := by
  intro l
  induction l with
  | nil => rfl
  | cons f t ih =>
    simp only [sortFiles, List.map_cons, List.insertionSort] at ih ⊢
    rw [ih, orderedInsert_setContent]

theorem modify_flatten_ne (p : String) (c c2 : List Nat) (hcc : c2 ≠ c) :
    ∀ l : DirListing, l.Pairwise (fun a b => a.1 ≠ b.1) → (p, c) ∈ l →
      ((l.map (setContent p c2)).map fileChunk).flatten ≠ (l.map fileChunk).flatten := by
  intro l
  induction l with
  | nil =>
    intro _ hm
    exact absurd hm (List.not_mem_nil _)
  | cons f t ih =>
    intro hpw hm
    have hhead := (List.pairwise_cons.mp hpw).1
    have htail := (List.pairwise_cons.mp hpw).2
    rcases List.mem_cons.mp hm with hf | hf
    · subst hf
      have hmap : t.map (setContent p c2) = t := by
        have h1 : t.map (setContent p c2) = t.map id := by
          apply List.map_congr_left
          intro b hb
          have hb1 : b.1 ≠ p := (hhead b hb).symm
          unfold setContent
          rw [if_neg hb1]
          rfl
        rw [h1, List.map_id]
      have hren : setContent p c2 (p, c) = (p, c2) := by
        unfold setContent
        rw [if_pos rfl]
      intro heq
      simp only [List.map_cons, List.flatten_cons, hmap, hren] at heq
      simp only [fileChunk, List.append_assoc] at heq
      exact hcc (List.append_cancel_right (List.append_cancel_left heq))
    · have hf1 : f.1 ≠ p := hhead (p, c) hf
      have hren : setContent p c2 f = f := by
        unfold setContent
        rw [if_neg hf1]
      intro heq
      simp only [List.map_cons, List.flatten_cons, hren] at heq
      exact ih htail hf (List.append_cancel_left heq)

/-- Modifying the content of one existing file (paths distinct, new
content different) changes the hash input stream. -/
theorem dir_hash_input_modify_ne (files : DirListing) (p : String) (c c2 : List Nat)
    (hnd : files.Pairwise fun a b => a.1 ≠ b.1) (hm : (p, c) ∈ files) (hcc : c2 ≠ c) :
    calculate_dir_hash_input (files.map (setContent p c2)) ≠ calculate_dir_hash_input files := by
  rw [dir_hash_input_eq_flatten, dir_hash_input_eq_flatten, sortFiles_map_setContent]
  apply modify_flatten_ne p c c2 hcc
  · exact ((sortFiles_perm files).pairwise_iff (fun h => h.symm)).mpr hnd
  · exact ((sortFiles_perm files).mem_iff).mpr hm

/-! ## Claim theorems -/

/-- C1: for a tracked artifact whose current on-disk hash equals the
recorded source hash and whose registry hash differs from it, sync (with
or without force) copies the registry content over the local copy,
updates the provenance record's source hash to the registry hash, and
returns success without prompting the user. -/
theorem sync_clean_upgrade (i : TrackRecord) (cur reg : String) (force : Bool)
    (inputs : List String) (hcur : cur = i.source_hash) (hreg : reg ≠ i.source_hash) :
    sync_artifact (some i) (some cur) (some reg) force inputs =
      { result := .ok, copied := true, tracked := some reg, prompted := false } := by
  simp [sync_artifact, hreg, hcur]

/-- Witness for `sync_clean_upgrade` at a concrete tracked artifact. -/
theorem sync_clean_upgrade_witness :
    sync_artifact (some ⟨"agent", "x", "h1", "latest", true⟩) (some "h1") (some "h2") false [] =
      { result := .ok, copied := true, tracked := some "h2", prompted := false } :=
  sync_clean_upgrade ⟨"agent", "x", "h1", "latest", true⟩ "h1" "h2" false [] rfl (by decide)

/-- C2: for a tracked artifact that is locally modified (current hash
differs from the recorded source hash) while the registry also moved
(registry hash differs from the recorded source hash), sync without
force shows the conflict prompt, choosing keep skips the sync with no
copy and no provenance write, and force overwrites without prompting. -/
theorem sync_conflict_decision (i : TrackRecord) (cur reg : String) (inputs : List String)
    (hcur : cur ≠ i.source_hash) (hreg : reg ≠ i.source_hash) :
    (sync_artifact (some i) (some cur) (some reg) false inputs).prompted = true ∧
      (promptLoop inputs = .keep →
        sync_artifact (some i) (some cur) (some reg) false inputs =
          { result := .failed, copied := false, tracked := none, prompted := true }) ∧
      sync_artifact (some i) (some cur) (some reg) true inputs =
        { result := .ok, copied := true, tracked := some reg, prompted := false } := by
  refine ⟨?_, ?_, ?_⟩
  · rcases h : promptLoop inputs <;> simp [sync_artifact, hcur, hreg, h]
  · intro h
    simp [sync_artifact, hcur, hreg, h]
  · simp [sync_artifact, hcur, hreg]

/-- Witness for `sync_conflict_decision`: a keep answer skips the sync. -/
theorem sync_conflict_decision_witness :
    sync_artifact (some ⟨"agent", "x", "h1", "latest", true⟩) (some "h3") (some "h2") false ["2"] =
      { result := .failed, copied := false, tracked := none, prompted := true } :=
  ((sync_conflict_decision ⟨"agent", "x", "h1", "latest", true⟩ "h3" "h2" ["2"]
    (by decide) (by decide)).2.1) (by decide)

/-- C5: for a tracked artifact whose registry hash equals the recorded
source hash, sync returns success with no copy and no provenance write,
whatever the current on-disk hash is. -/
theorem sync_up_to_date_noop (i : TrackRecord) (cur reg : String) (force : Bool)
    (inputs : List String) (hreg : reg = i.source_hash) :
    sync_artifact (some i) (some cur) (some reg) force inputs =
      { result := .ok, copied := false, tracked := none, prompted := false } := by
  simp [sync_artifact, hreg]

/-- Witness for `sync_up_to_date_noop`, with a locally modified artifact. -/
theorem sync_up_to_date_noop_witness :
    sync_artifact (some ⟨"agent", "x", "h1", "latest", true⟩) (some "h3") (some "h1") false [] =
      { result := .ok, copied := false, tracked := none, prompted := false } :=
  sync_up_to_date_noop ⟨"agent", "x", "h1", "latest", true⟩ "h3" "h1" false [] rfl

/-- C3 (amended): the hash input stream is the same for any two listings
with the same relative-path-to-content mapping, whatever order the files
are enumerated in; adding a file (equivalently, read backwards, removing
one) changes the stream; and modifying one file's content changes the
stream.  Renaming a file, however, need not change it — see the
counterexample `dir_hash_rename_collision`. -/
theorem dir_hash_amended :
    (∀ l1 l2 : DirListing, l1.Perm l2 → (l1.Pairwise fun a b => a.1 ≠ b.1) →
        calculate_dir_hash_input l1 = calculate_dir_hash_input l2) ∧
      (∀ (files : DirListing) (p : String) (c : List Nat),
        p ≠ "" → p ∉ files.map Prod.fst →
          calculate_dir_hash_input (files ++ [(p, c)]) ≠ calculate_dir_hash_input files) ∧
      (∀ (files : DirListing) (p : String) (c c2 : List Nat),
        (files.Pairwise fun a b => a.1 ≠ b.1) → (p, c) ∈ files → c2 ≠ c →
          calculate_dir_hash_input (files.map (setContent p c2)) ≠
            calculate_dir_hash_input files) := by
  refine ⟨?_, ?_, ?_⟩
  · intro l1 l2 hp hnd
    exact dir_hash_input_perm hp hnd
  · intro files p c h1 _
    exact dir_hash_input_append_ne files p c h1
  · intro files p c c2 hnd hm hcc
    exact dir_hash_input_modify_ne files p c c2 hnd hm hcc

/-- Witness for `dir_hash_amended`: two enumeration orders of the same
two-file directory produce the same hash input. -/
theorem dir_hash_amended_witness :
    calculate_dir_hash_input [("a", [0]), ("b", [1])] =
      calculate_dir_hash_input [("b", [1]), ("a", [0])] :=
  dir_hash_amended.1 _ _ (List.Perm.swap _ _ _) (by decide)

/-- C3 (counterexample): renaming a file can leave the digest unchanged.
The directory with empty files at paths ab and aba, after renaming ab to
ba (content unchanged), feeds the very same byte stream to SHA-256 —
both concatenate to the bytes of ababa — so the digest is identical even
though the path sets differ. -/
theorem dir_hash_rename_collision :
    calculate_dir_hash_input [("ab", []), ("aba", [])] =
        calculate_dir_hash_input [("ba", []), ("aba", [])] ∧
      ("ab", ([] : List Nat)) ∈ [(("ab" : String), ([] : List Nat)), ("aba", [])] ∧
      "ab" ∉ ([(("ba" : String), ([] : List Nat)), ("aba", [])]).map Prod.fst ∧
      "ba" ∈ ([(("ba" : String), ([] : List Nat)), ("aba", [])]).map Prod.fst ∧
      ("ab" : String) ≠ "ba" :=
  ⟨by decide, by decide, by decide, by decide, by decide⟩

/-- C4: behaviour of `parse_github_url` at the two inputs where the code
diverges from the specified parsing rules.  A raw-content-host URL with
exactly owner, repo and ref segments gets ref main instead of the third
segment (the guard tests for more than three segments while the value
reads the third), and a URL of an unrecognized host that merely contains
github.com as a substring is parsed instead of rejected — the
repository's own test expects None for the second input. -/
theorem parse_github_url_divergence :
    parse_github_url "https://raw.githubusercontent.com/owner/repo/dev" =
        some { owner := "owner", repo := "repo", ref := "main", path := "" } ∧
      parse_github_url "https://not-github.com/something" =
        some { owner := "https:", repo := "", ref := "main",
               path := "not-github.com/something" } :=
  ⟨by decide, by decide⟩

/-- C6: custom-source resolution tries the four recognized top-level
folders in the fixed order custom_copilot, .cuco, .github, skills; the
first existing folder wins — in particular the traditional
customizations folder beats every dot-folder alternative — and when none
of the four exists no path is returned. -/
theorem custom_source_folder_priority (repo : RepoLayout) :
    (repo.hasCustomCopilot = true →
        get_custom_source_path true (some repo) = some "custom_copilot") ∧
      (repo.hasCustomCopilot = false → repo.hasDotCuco = true →
        get_custom_source_path true (some repo) = some ".cuco") ∧
      (repo.hasCustomCopilot = false → repo.hasDotCuco = false → repo.hasDotGithub = true →
        get_custom_source_path true (some repo) = some ".github") ∧
      (repo.hasCustomCopilot = false → repo.hasDotCuco = false → repo.hasDotGithub = false →
        repo.hasSkills = true → get_custom_source_path true (some repo) = some "skills") ∧
      (repo.hasCustomCopilot = false → repo.hasDotCuco = false → repo.hasDotGithub = false →
        repo.hasSkills = false → get_custom_source_path true (some repo) = none) := by
  obtain ⟨a, b, c, d⟩ := repo
  refine ⟨?_, ?_, ?_, ?_, ?_⟩ <;> intros <;> subst_eqs <;>
    simp [get_custom_source_path, resolve_structure_root]

/-- Witness for `custom_source_folder_priority`: a repository with both
the traditional folder and the alternate dot-folder resolves to the
traditional one. -/
theorem custom_source_folder_priority_witness :
    get_custom_source_path true (some ⟨true, true, false, false⟩) = some "custom_copilot" :=
  (custom_source_folder_priority ⟨true, true, false, false⟩).1 rfl

/-- C7: whenever `download_github_file` fails (returns None) no temporary
file is left on disk; in particular a downloaded file larger than the
ten-mebibyte ceiling makes it fail and delete the temporary file. -/
theorem download_size_limit_cleanup (env : DownloadEnv) :
    ((download_github_file env).1 = none → ((download_github_file env).2).onDisk = false) ∧
      (env.tempCreateOk = true → env.fetchOk = true → 10 * 1024 * 1024 < env.size →
        download_github_file env = (none, { tempPath := some "tmp", onDisk := false })) := by
  obtain ⟨tc, fo, sz⟩ := env
  constructor
  · cases tc <;> cases fo <;>
      simp only [download_github_file, download_try_body] <;>
      by_cases h : 10 * 1024 * 1024 < sz <;> simp [h]
  · intro h1 h2 h3
    subst_eqs
    simp [download_github_file, download_try_body, h3]

/-- Witness for `download_size_limit_cleanup`: a download one byte over
the ceiling fails and leaves no temporary file. -/
theorem download_size_limit_cleanup_witness :
    download_github_file ⟨true, true, 10485761⟩ =
      (none, { tempPath := some "tmp", onDisk := false }) :=
  (download_size_limit_cleanup ⟨true, true, 10485761⟩).2 rfl rfl (by decide)

/-- C8 (counterexample): in a project where only .claude exists, the
target directory is .claude but the tracking file still lives under
.github, so the tracking-file path is not the target directory joined
with the tracking file name. -/
theorem tracking_file_counterexample :
    get_tracking_file_path ≠ get_target_dir false true false ++ "/" ++ TRACKING_FILE := by
  decide

/-- C8 (amended): the tracking file is always .github/.cuco-tracking.json;
it equals the target directory joined with the tracking file name exactly
when .github exists or no engine folder exists at all (the cases where
the target directory is .github). -/
theorem tracking_file_amended (hasGithub hasClaude hasCuco : Bool)
    (h : hasGithub = true ∨ (hasClaude = false ∧ hasCuco = false)) :
    get_tracking_file_path = ".github" ++ "/" ++ TRACKING_FILE ∧
      get_tracking_file_path =
        get_target_dir hasGithub hasClaude hasCuco ++ "/" ++ TRACKING_FILE := by
  constructor
  · rfl
  · rcases h with h | ⟨h1, h2⟩
    · subst h
      rfl
    · subst h1
      subst h2
      cases hasGithub <;> rfl

/-- Witness for `tracking_file_amended` in a project with no engine
folder yet. -/
theorem tracking_file_amended_witness :
    get_tracking_file_path =
      get_target_dir false false false ++ "/" ++ TRACKING_FILE :=
  (tracking_file_amended false false false (Or.inr ⟨rfl, rfl⟩)).2

/-- C9 (counterexample): sync-all processes records in the store's file
order, not sorted by identity key, and the order does depend on the
insertion order: a store holding prompt/b before agent/a is processed in
that order, which differs from the identity-key-sorted order and from
the processing order of the same records inserted the other way round. -/
theorem sync_all_order_counterexample :
    get_all_tracked_artifacts
        [("prompt/b", ⟨"prompt", "b", "h1", "latest", true⟩),
          ("agent/a", ⟨"agent", "a", "h2", "latest", true⟩)] ≠
      spec_sorted_artifacts
        [("prompt/b", ⟨"prompt", "b", "h1", "latest", true⟩),
          ("agent/a", ⟨"agent", "a", "h2", "latest", true⟩)] ∧
    sync_all_order
        [("prompt/b", ⟨"prompt", "b", "h1", "latest", true⟩),
          ("agent/a", ⟨"agent", "a", "h2", "latest", true⟩)] ≠
      sync_all_order
        [("agent/a", ⟨"agent", "a", "h2", "latest", true⟩),
          ("prompt/b", ⟨"prompt", "b", "h1", "latest", true⟩)] :=
  ⟨by decide, by decide⟩

/-- C9 (amended): sync-all visits every tracked record exactly once, in
the deterministic order in which the records appear in the tracking
store (its JSON key order), rather than sorted by identity key. -/
theorem sync_all_order_amended (store : TrackingStore) :
    sync_all_order store = store.map (fun e => (e.2.type, e.2.name)) ∧
      ∀ e ∈ store, (e.2.type, e.2.name) ∈ sync_all_order store := by
  constructor
  · simp [sync_all_order, get_all_tracked_artifacts, List.map_map]
  · intro e he
    exact List.mem_map_of_mem _ (List.mem_map_of_mem _ he)

/-- Witness for `sync_all_order_amended` at a one-record store. -/
theorem sync_all_order_amended_witness :
    ("agent", "a") ∈ sync_all_order [("agent/a", ⟨"agent", "a", "h", "latest", true⟩)] :=
  (sync_all_order_amended _).2 ("agent/a", ⟨"agent", "a", "h", "latest", true⟩) (by decide)

/-- C10 (counterexample): a dependency entry of unrecognized kind makes
`install_bundle_resource` fail, but `install_bundle` discards the
per-entry results and still reports overall success, so the failure is
not surfaced by the bundle install. -/
theorem bundle_unknown_kind_counterexample :
    install_bundle_resource (fun _ => true) { name := "x", kind := "bogus" } = false ∧
      (install_bundle (fun _ => true)
          (some { agents := [{ name := "x", kind := "bogus" }], prompts := [], skills := [],
                  instructions := [] }) true).1 = true :=
  ⟨by decide, by decide⟩

/-- C10 (amended): an entry whose kind is not one of the recognized kinds
(deprecated aliases included) makes `install_bundle_resource` return
failure without installing anything, while `install_bundle` on an
existing manifest and project ignores per-entry failures and returns
success regardless of the dependencies. -/
theorem bundle_unknown_kind_amended (env : BundleResource → Bool) (r : BundleResource)
    (h : r.kind ∉ recognizedKinds) (m : BundleManifest) :
    install_bundle_resource env r = false ∧
      (install_bundle env (some m) true).1 = true := by
  constructor
  · simp only [recognizedKinds, List.mem_cons, List.not_mem_nil, or_false, not_or] at h
    obtain ⟨h1, h2, h3, h4, h5, h6, h7⟩ := h
    simp [install_bundle_resource, install_bundle_resource_aux, h1, h2, h3, h4, h5, h6, h7]
  · simp [install_bundle]

/-- Witness for `bundle_unknown_kind_amended` on a concrete unrecognized
kind. -/
theorem bundle_unknown_kind_amended_witness :
    install_bundle_resource (fun _ => true) { name := "y", kind := "mystery" } = false :=
  (bundle_unknown_kind_amended (fun _ => true) { name := "y", kind := "mystery" }
    (by decide) ⟨[], [], [], []⟩).1

end CustomCopilot
